import Mathlib

/-!
# Verification of the azure-quick-review rule-evaluation core

Shallow embedding of the repository's scanner and rule code.  Go pointers
become `Option`; a Go panic or a process-terminating `log.Fatal` becomes
`Option.none` (for rule predicates) or a dedicated `fatal` outcome (for the
advisor scanner).  Go `map` lookups over the diagnostics-settings index are
modelled with association lists.  Machine strings are Lean `String`s;
`strings.Contains`, `strings.ToLower`, `strings.HasPrefix` and
`strconv.FormatBool` are embedded below.
-/

/-- Embedding of Go `strconv.FormatBool`. -/
def formatBool (b : Bool) : String := if b then "true" else "false"

/-- Substring test on character lists: `substrOccurs sub l` holds when `sub`
occurs contiguously inside `l` (embedding of Go `strings.Contains` data). -/
def substrOccurs (sub : List Char) : List Char → Bool
  | [] => sub.isEmpty
  | c :: cs => sub.isPrefixOf (c :: cs) || substrOccurs sub cs

/-- Embedding of Go `strings.Contains s sub`. -/
def strContains (s sub : String) : Bool := substrOccurs sub.data s.data

/-- Embedding of Go `strings.ToLower` on the resource ids involved:
character-wise lower-casing of the string's data. -/
def strToLower (s : String) : String := ⟨s.data.map Char.toLower⟩

/-- Case-insensitive string equality (both sides lower-cased). -/
def eqCI (a b : String) : Bool := strToLower a == strToLower b

/-- Embedding of `azqr.ScanContext`: the read-only per-subscription snapshot.
`diagnosticsSettings` embeds the Go `map[string]bool` diagnostics-settings
index as an association list (membership is what the code consults). -/
structure ScanContext where
  diagnosticsSettings : List (String × Bool)

/-- Key membership in the diagnostics-settings index (Go `_, ok := m[k]`). -/
def ScanContext.hasKey (ctx : ScanContext) (k : String) : Bool :=
  (ctx.diagnosticsSettings.lookup k).isSome

/-- Embedding of `azqr.ScannerConfig` (the fields the scanners stamp onto
results). -/
structure ScannerConfig where
  subscriptionID : String
  subscriptionName : String

/-- One evaluated (resource, rule) outcome inside a service result. -/
structure AzqrResult where
  ruleId : String
  broken : Bool
  detail : String
deriving DecidableEq, Repr

/-- Embedding of `azqr.AzqrRecommendation`, generic over the resource type
`α` (the Go code erases it to `interface{}` and casts back inside each
predicate).  The engine assumes predicates are total over the declared
resource type, as the spec states. -/
structure AzqrRecommendation (α : Type) where
  recommendationId : String
  eval : α → ScanContext → Bool × String

/-- Modelled from the spec: `RecommendationEngine.EvaluateRecommendations`
is not under `src/` (only its callers are).  Spec §4.2: for each rule in the
table, in the table's declared order, invoke the predicate with the resource
and the shared context, producing one result row per rule. -/
def evaluateRecommendations {α : Type} (rules : List (AzqrRecommendation α))
    (target : α) (ctx : ScanContext) : List AzqrResult :=
  rules.map fun r =>
    { ruleId := r.recommendationId
      broken := (r.eval target ctx).1
      detail := (r.eval target ctx).2 }

/-- Embedding of `azqr.AzqrServiceResult` as stamped by the scanners. -/
structure AzqrServiceResult where
  subscriptionID : String
  subscriptionName : String
  resourceGroup : String
  serviceName : String
  type : String
  location : String
  recommendations : List AzqrResult
deriving DecidableEq, Repr

/-- Embedding of the per-scanner `Scan` body shared verbatim by
`VirtualMachineScaleSetScanner.Scan`, `ContainerInstanceScanner.Scan` and
`SignalRScanner.Scan`: on a failed listing return the error and no rows;
otherwise one `AzqrServiceResult` per listed resource, in listing order,
stamped with the config's subscription id/name, the resource group and the
resource's name/type/location, carrying the engine's rows.  The listing
outcome and the `*w.Name`/`*w.Type`/`*w.Location` accessors are parameters
(the paged listing and the SDK resource types live outside the scanner). -/
def scanResourceGroup {α ε : Type} (config : ScannerConfig)
    (resourceGroupName : String) (rules : List (AzqrRecommendation α))
    (ctx : ScanContext) (name ty loc : α → String)
    (listing : Except ε (List α)) : Except ε (List AzqrServiceResult) :=
  match listing with
  | .error e => .error e
  | .ok rs => .ok (rs.map fun w =>
      { subscriptionID := config.subscriptionID
        subscriptionName := config.subscriptionName
        resourceGroup := resourceGroupName
        serviceName := name w
        type := ty w
        location := loc w
        recommendations := evaluateRecommendations rules w ctx })

section AksRules

/-- Embedding of `armcontainerservice.ManagedClusterAgentPoolProfile`
(the fields the aks rules read).  `availabilityZones` is `[]*string`
(`none` = Go nil slice); `enableAutoScaling` is `*bool`. -/
structure AgentPoolProfile where
  availabilityZones : Option (List String)
  enableAutoScaling : Option Bool
deriving DecidableEq, Repr

/-- Embedding of `armcontainerservice.ManagedClusterSKU`. -/
structure ManagedClusterSKU where
  tier : Option String
deriving DecidableEq, Repr

/-- The `Properties` the aks rules read from a managed cluster. -/
structure AksProperties where
  agentPoolProfiles : Option (List AgentPoolProfile)
  enableRBAC : Option Bool
deriving DecidableEq, Repr

/-- Embedding of `armcontainerservice.ManagedCluster` (fields read by the
rules under consideration). -/
structure ManagedCluster where
  name : Option String
  sku : Option ManagedClusterSKU
  properties : AksProperties
deriving DecidableEq, Repr

/-- One iteration of the `zones` loop of aks-002 and aks-003: a profile
whose `AvailabilityZones` is nil or of length `<= 1` forces the flag to
`false`. -/
def zonesStep (zones : Bool) (profile : AgentPoolProfile) : Bool :=
  match profile.availabilityZones with
  | none => false
  | some az => if az.length ≤ 1 then false else zones

/-- The `zones` flag computed by the loops of aks-002 and aks-003,
starting at `true`. -/
def zonesFlag (profiles : List AgentPoolProfile) : Bool :=
  profiles.foldl zonesStep true

/-- A profile passes the zones check: a non-nil zone list of length `≥ 2`. -/
def profileZonesOK (p : AgentPoolProfile) : Bool :=
  match p.availabilityZones with
  | none => false
  | some az => decide (2 ≤ az.length)

/-- The `sku` string computed by aks-003/aks-005: the SKU tier when both the
SKU and its tier are present, `"Free"` otherwise. -/
def aksSkuString (c : ManagedCluster) : String :=
  match c.sku with
  | some s => match s.tier with
    | some t => t
    | none => "Free"
  | none => "Free"

/-- Embedding of the aks-002 predicate (availability zones): broken when
some agent-pool profile has nil or `<= 1` availability zones.  Ranging over
a nil Go slice runs zero iterations, hence the `getD []`. -/
def aks002Eval (c : ManagedCluster) : Option (Bool × String) :=
  some (!(zonesFlag (c.properties.agentPoolProfiles.getD [])), "")

/-- Embedding of the aks-003 predicate (SLA): `"None"` on a tier containing
`"Free"`, else `"99.95%"` with zones everywhere and `"99.9%"` otherwise;
broken exactly when the SLA is `"None"`. -/
def aks003Eval (c : ManagedCluster) : Option (Bool × String) :=
  let zones := zonesFlag (c.properties.agentPoolProfiles.getD [])
  let sku := aksSkuString c
  let sla := if strContains sku "Free" then "None"
             else if zones then "99.95%" else "99.9%"
  some (sla == "None", sla)

/-- Embedding of the aks-008 predicate (RBAC): dereferences
`*c.Properties.EnableRBAC` with no nil check, so a cluster that does not
populate the field panics (`none`). -/
def aks008Eval (c : ManagedCluster) : Option (Bool × String) := do
  let rbac ← c.properties.enableRBAC
  return (!rbac, "")

/-- Embedding of the aks-014 predicate (autoscaler): when the profile list
is non-nil the loop body returns on its very first iteration, from the first
profile's `EnableAutoScaling`; a nil or empty list yields broken. -/
def aks014Eval (c : ManagedCluster) : Option (Bool × String) :=
  match c.properties.agentPoolProfiles with
  | none => some (true, "")
  | some [] => some (true, "")
  | some (p :: _) =>
    match p.enableAutoScaling with
    | some b => some (!b, "")
    | none => some (true, "")

end AksRules

section EvhRules

/-- Embedding of `armeventhub.SKU` (a pointer in the namespace; `name` is
itself the pointer `*SKUName`). -/
structure EHSKU where
  name : Option String
deriving DecidableEq, Repr

/-- The `Properties` fields the evh rules read. `zoneRedundant` is `*bool`;
`privateEndpointConnections` keeps only the slice length's witnesses. -/
structure EHProperties where
  zoneRedundant : Option Bool
  privateEndpointConnections : List Unit
deriving DecidableEq, Repr

/-- Embedding of `armeventhub.EHNamespace` (fields read by the rules). -/
structure EHNamespace where
  id : Option String
  name : Option String
  sku : Option EHSKU
  properties : Option EHProperties
deriving DecidableEq, Repr

/-- State of the `EventHubScanner` captured by its rule closures: the
`a.diagnosticsSettings` collaborator, whose `HasDiagnostics` call can fail
(`.error`) or answer a boolean. -/
structure EvhScannerState where
  hasDiagnostics : String → Except String Bool

/-- Embedding of the evh-001 predicate (diagnostic settings).  The closure
reads the scanner's `a.diagnosticsSettings` state — not the `ScanContext`
argument, which it ignores.  An error from `HasDiagnostics` hits
`log.Fatalf`, i.e. terminates the process (`none`); a nil `ID` panics. -/
def evh001Eval (st : EvhScannerState) (i : EHNamespace)
    (_ctx : ScanContext) : Option (Bool × String) := do
  let id ← i.id
  match st.hasDiagnostics id with
  | .error _ => none
  | .ok h => return (!h, formatBool h)

/-- Embedding of the evh-002 predicate (availability zones): dereferences
`*i.Properties.ZoneRedundant` with no nil check, so a namespace that does
not populate either pointer panics (`none`). -/
def evh002Eval (i : EHNamespace) : Option (Bool × String) := do
  let props ← i.properties
  let zones ← props.zoneRedundant
  return (!zones, formatBool zones)

/-- Embedding of the evh-003 predicate (SLA): `sla` starts at `"99.95%"`
and becomes `"99.99%"` only when the SKU name contains neither `"Basic"`
nor `"Standard"`; broken is always `false`. -/
def evh003Eval (i : EHNamespace) : Option (Bool × String) := do
  let s ← i.sku
  let sku ← s.name
  let sla := if !strContains sku "Basic" && !strContains sku "Standard"
             then "99.99%" else "99.95%"
  return (false, sla)

end EvhRules

section DbwRules

/-- Embedding of `armdatabricks.WorkspaceCustomBooleanParameter`: its
`Value` field is a `*bool`, modelled as the address (`Nat`) of the pointed-to
cell, `none` for a nil pointer.  Only the address takes part in the Go `==`
comparison the dbw-007 predicate performs. -/
structure WorkspaceCustomBooleanParameter where
  value : Option Nat
deriving DecidableEq, Repr

/-- The `Properties.Parameters` fields dbw-007 reads. -/
structure DbwParameters where
  enableNoPublicIP : Option WorkspaceCustomBooleanParameter
deriving DecidableEq, Repr

/-- The workspace `Properties` fields the dbw rules read. -/
structure DbwProperties where
  parameters : Option DbwParameters
deriving DecidableEq, Repr

/-- Embedding of `armdatabricks.Workspace` (fields read by the rules). -/
structure DbwWorkspace where
  id : Option String
  name : Option String
  properties : Option DbwProperties
deriving DecidableEq, Repr

/-- Embedding of the dbw-001 predicate (diagnostic settings): looks the
lower-cased `*service.ID` up in `scanContext.DiagnosticsSettings`; a key
miss is `broken`, never an error.  A nil `ID` panics (`none`). -/
def dbw001Eval (target : DbwWorkspace) (ctx : ScanContext) :
    Option (Bool × String) := do
  let id ← target.id
  return (!(ctx.hasKey (strToLower id)), "")

/-- Embedding of the dbw-007 predicate (public IP): compares the `*bool`
`EnableNoPublicIP.Value` with `to.Ptr(true)` using Go pointer equality.
`to.Ptr` allocates a fresh cell, modelled by the address `fresh` assumed
larger than every address already reachable from the workspace.  A nil
`Properties` or `Parameters` pointer panics (`none`). -/
def dbw007Eval (c : DbwWorkspace) (fresh : Nat) : Option (Bool × String) := do
  let props ← c.properties
  let params ← props.parameters
  let broken := match params.enableNoPublicIP with
    | none => false
    | some p => p.value == some fresh
  return (broken, "")

/-- Every pointer address reachable from the workspace is below `fresh`
(the allocator hands out strictly increasing addresses, so a freshly
allocated cell's address exceeds all existing ones). -/
def addrBound (c : DbwWorkspace) (fresh : Nat) : Prop :=
  ∀ props params p a, c.properties = some props →
    props.parameters = some params →
    params.enableNoPublicIP = some p → p.value = some a → a < fresh

end DbwRules

section Advisor

/-- Embedding of `scanners.AdvisorResult`. -/
structure AdvisorResult where
  subscriptionID : String
  subscriptionName : String
  name : String
  type : String
  category : String
  description : String
  potentialBenefits : String
  risk : String
  learnMoreLink : String
deriving DecidableEq, Repr

/-- Outcome of a run of `AdvisorScanner.Scan`: either a result list, or a
process-terminating `log.Fatal` carrying the offending error. -/
inductive AdvisorScanOutcome (ε : Type) where
  | ok (results : List AdvisorResult)
  | fatal (e : ε)
deriving DecidableEq

/-- Embedding of `AdvisorScanner.Scan`'s error handling: when the listing
fails, a skippable error (per `azqr.ShouldSkipError`) degrades to an empty
result list, while any other error reaches `log.Fatal`, which terminates
the process.  The classifier and the listing outcome are parameters
(`ShouldSkipError` and the paged listing live outside the scanner). -/
def advisorScan {ε : Type} (shouldSkipError : ε → Bool)
    (listRecommendations : Except ε (List AdvisorResult)) (scan : Bool) :
    AdvisorScanOutcome ε :=
  if scan then
    match listRecommendations with
    | .ok rec => .ok rec
    | .error err =>
      if shouldSkipError err then .ok [] else .fatal err
  else .ok []

end Advisor


/-! ## Theorems -/

/-- C1: for every rule table, resource of the table's declared type and scan
context, `EvaluateRecommendations` returns exactly `len(T)` result rows, one
per rule, in the table's declaration order: the i-th row carries the i-th
rule's id and that rule's predicate outcome. -/
theorem evaluateRecommendations_len_order {α : Type}
    (rules : List (AzqrRecommendation α)) (target : α) (ctx : ScanContext) :
    (evaluateRecommendations rules target ctx).length = rules.length ∧
    ∀ i : Nat, (evaluateRecommendations rules target ctx)[i]? =
      (rules[i]?).map fun r =>
        { ruleId := r.recommendationId
          broken := (r.eval target ctx).1
          detail := (r.eval target ctx).2 } := by
  constructor
  · simp [evaluateRecommendations]
  · intro i
    simp [evaluateRecommendations, List.getElem?_map]

/-- C7: with a successful listing, `Scan` returns one stamped service result
per listed resource, in listing order, carrying the engine's rows for that
resource; with a failed listing it returns no rows and the error. -/
theorem scanResourceGroup_stamps_each_resource {α ε : Type}
    (config : ScannerConfig) (rg : String)
    (rules : List (AzqrRecommendation α)) (ctx : ScanContext)
    (name ty loc : α → String) :
    (∀ rs : List α, ∃ out,
      scanResourceGroup config rg rules ctx name ty loc
          (Except.ok rs : Except ε (List α)) = .ok out ∧
      out.length = rs.length ∧
      ∀ i : Nat, out[i]? = (rs[i]?).map fun w =>
        { subscriptionID := config.subscriptionID
          subscriptionName := config.subscriptionName
          resourceGroup := rg
          serviceName := name w
          type := ty w
          location := loc w
          recommendations := evaluateRecommendations rules w ctx }) ∧
    (∀ e : ε,
      scanResourceGroup config rg rules ctx name ty loc (.error e) =
        .error e) := by
  constructor
  · intro rs
    refine ⟨_, rfl, ?_, ?_⟩
    · simp [scanResourceGroup]
    · intro i
      simp [scanResourceGroup, List.getElem?_map]
  · intro e
    rfl

/-- C10: with a non-empty agent-pool profile list, aks-014 is decided by the
first profile alone (broken iff its `EnableAutoScaling` is nil or false);
the later profiles never influence the result; a nil or empty profile list
yields broken. -/
theorem aks014_first_profile_decides (c : ManagedCluster)
    (p : AgentPoolProfile) (rest : List AgentPoolProfile)
    (h : c.properties.agentPoolProfiles = some (p :: rest)) :
    aks014Eval c = some (!(p.enableAutoScaling.getD false), "") ∧
    ((p.enableAutoScaling.getD false) = false ↔
      p.enableAutoScaling = none ∨ p.enableAutoScaling = some false) ∧
    (∀ (c₂ : ManagedCluster) (rest₂ : List AgentPoolProfile),
      c₂.properties.agentPoolProfiles = some (p :: rest₂) →
      aks014Eval c₂ = aks014Eval c) ∧
    (∀ c₃ : ManagedCluster,
      c₃.properties.agentPoolProfiles = none ∨
        c₃.properties.agentPoolProfiles = some [] →
      aks014Eval c₃ = some (true, "")) := by
  have e1 : aks014Eval c = some (!(p.enableAutoScaling.getD false), "") := by
    simp only [aks014Eval, h]
    cases hp : p.enableAutoScaling <;> simp
  refine ⟨e1, ?_, ?_, ?_⟩
  · cases hp : p.enableAutoScaling with
    | none => simp
    | some b => cases b <;> simp
  · intro c₂ rest₂ h₂
    rw [e1]
    simp only [aks014Eval, h₂]
    cases hp : p.enableAutoScaling <;> simp
  · rintro c₃ (h₃ | h₃) <;> simp [aks014Eval, h₃]

/-- C10 witness: a concrete cluster whose first profile disables
autoscaling and whose second enables it is broken for aks-014. -/
theorem aks014_first_profile_decides_witness :
    aks014Eval
      { name := some "aks1", sku := none,
        properties :=
          { agentPoolProfiles :=
              some [⟨none, some false⟩, ⟨none, some true⟩],
            enableRBAC := some true } } =
      some (!((some false).getD false), "") :=
  (aks014_first_profile_decides _ ⟨none, some false⟩ [⟨none, some true⟩]
    rfl).1

/-- C3 counterexample: an Event Hub namespace with SKU name `"Standard"`
does not contain `"Basic"`, yet evh-003 yields detail `"99.95%"` rather
than the claimed `"99.99%"` (the code also maps `"Standard"` to 99.95%). -/
theorem evh003_standard_counterexample :
    strContains "Standard" "Basic" = false ∧
    evh003Eval ⟨some "id1", some "evhns1", some ⟨some "Standard"⟩, none⟩ =
      some (false, "99.95%") ∧
    "99.95%" ≠ "99.99%" := by
  refine ⟨by decide, by decide, by decide⟩

/-- C3 amended: with a non-nil SKU name, evh-003 always reports
`broken = false`, with detail `"99.95%"` when the SKU name contains
`"Basic"` or `"Standard"`, and `"99.99%"` otherwise. -/
theorem evh003_sla (i : EHNamespace) (s : EHSKU) (sku : String)
    (hs : i.sku = some s) (hn : s.name = some sku) :
    ∃ d, evh003Eval i = some (false, d) ∧
      (strContains sku "Basic" = true → d = "99.95%") ∧
      (strContains sku "Standard" = true → d = "99.95%") ∧
      (strContains sku "Basic" = false → strContains sku "Standard" = false →
        d = "99.99%") := by
  refine ⟨if !strContains sku "Basic" && !strContains sku "Standard"
          then "99.99%" else "99.95%", ?_, ?_, ?_, ?_⟩
  · simp [evh003Eval, hs, hn]
  · intro hb
    simp [hb]
  · intro hb
    simp [hb]
  · intro h1 h2
    simp [h1, h2]

/-- C3 amended witness: a concrete namespace with SKU `"Premium"` gets
detail `"99.99%"` and `broken = false`. -/
theorem evh003_sla_witness :
    ∃ d, evh003Eval ⟨some "id2", some "evhns2", some ⟨some "Premium"⟩, none⟩ =
        some (false, d) ∧
      (strContains "Premium" "Basic" = true → d = "99.95%") ∧
      (strContains "Premium" "Standard" = true → d = "99.95%") ∧
      (strContains "Premium" "Basic" = false →
        strContains "Premium" "Standard" = false → d = "99.99%") :=
  evh003_sla ⟨some "id2", some "evhns2", some ⟨some "Premium"⟩, none⟩
    ⟨some "Premium"⟩ "Premium" rfl rfl

/-- The zones loop never recovers once the flag is down. -/
theorem zonesStep_false (p : AgentPoolProfile) : zonesStep false p = false := by
  unfold zonesStep
  cases p.availabilityZones with
  | none => rfl
  | some az => by_cases h : az.length ≤ 1 <;> simp [h]

/-- Folding the zones loop from a downed flag stays down. -/
theorem foldl_zonesStep_false (l : List AgentPoolProfile) :
    l.foldl zonesStep false = false := by
  induction l with
  | nil => rfl
  | cons p l ih => simp [List.foldl_cons, zonesStep_false, ih]

/-- One zones-loop iteration from a raised flag checks the profile. -/
theorem zonesStep_true (p : AgentPoolProfile) :
    zonesStep true p = profileZonesOK p := by
  unfold zonesStep profileZonesOK
  cases p.availabilityZones with
  | none => rfl
  | some az =>
    by_cases h : az.length ≤ 1 <;> simp [h] <;> omega

/-- The zones flag holds exactly when every profile passes the check. -/
theorem zonesFlag_eq_all (l : List AgentPoolProfile) :
    zonesFlag l = l.all profileZonesOK := by
  induction l with
  | nil => rfl
  | cons p l ih =>
    simp only [zonesFlag, List.foldl_cons, List.all_cons, zonesStep_true]
    cases hp : profileZonesOK p
    · rw [foldl_zonesStep_false]
      simp
    · simpa [zonesFlag] using ih

/-- C4: a managed cluster with some agent-pool profile carrying exactly one
availability zone is broken for aks-002; on a non-free tier, aks-003 reports
`"99.9%"` when some profile has nil or `≤ 1` zones and `"99.95%"` when every
profile has `≥ 2` zones, with `broken = false` in both cases. -/
theorem aks_zones_and_sla (c : ManagedCluster)
    (profiles : List AgentPoolProfile)
    (hp : c.properties.agentPoolProfiles = some profiles) :
    ((∃ p ∈ profiles, ∃ az, p.availabilityZones = some az ∧ az.length = 1) →
      aks002Eval c = some (true, "")) ∧
    (strContains (aksSkuString c) "Free" = false →
      ((∃ p ∈ profiles, p.availabilityZones = none ∨
          ∃ az, p.availabilityZones = some az ∧ az.length ≤ 1) →
        aks003Eval c = some (false, "99.9%")) ∧
      ((∀ p ∈ profiles, ∃ az, p.availabilityZones = some az ∧ 2 ≤ az.length) →
        aks003Eval c = some (false, "99.95%"))) := by
  have hflagFalse : ∀ p ∈ profiles, profileZonesOK p = false →
      zonesFlag profiles = false := by
    intro p hmem hbad
    rw [zonesFlag_eq_all]
    cases hA : profiles.all profileZonesOK
    · rfl
    · have := List.all_eq_true.mp hA p hmem
      rw [hbad] at this
      exact absurd this (by simp)
  refine ⟨?_, fun hfree => ⟨?_, ?_⟩⟩
  · rintro ⟨p, hmem, az, haz, hlen⟩
    have hbad : profileZonesOK p = false := by
      simp [profileZonesOK, haz, hlen]
    have hz : zonesFlag profiles = false := hflagFalse p hmem hbad
    simp [aks002Eval, hp, hz]
  · rintro ⟨p, hmem, hcase⟩
    have hbad : profileZonesOK p = false := by
      rcases hcase with hnone | ⟨az, haz, hlen⟩
      · simp [profileZonesOK, hnone]
      · simp only [profileZonesOK, haz, decide_eq_false_iff_not]
        omega
    have hz : zonesFlag profiles = false := hflagFalse p hmem hbad
    simp [aks003Eval, hp, hz, hfree]
  · intro hgood
    have hz : zonesFlag profiles = true := by
      rw [zonesFlag_eq_all]
      refine List.all_eq_true.mpr ?_
      intro p hmem
      rcases hgood p hmem with ⟨az, haz, hlen⟩
      simp [profileZonesOK, haz, hlen]
    simp [aks003Eval, hp, hz, hfree]

/-- A concrete non-free-tier cluster whose only profile has one zone. -/
def sampleAksCluster : ManagedCluster :=
  { name := some "akscluster1"
    sku := some ⟨some "Paid"⟩
    properties :=
      { agentPoolProfiles := some [⟨some ["z1"], some true⟩]
        enableRBAC := some true } }

/-- C4 witness: the concrete cluster is broken for aks-002 and gets the
`"99.9%"` SLA from aks-003. -/
theorem aks_zones_and_sla_witness :
    aks002Eval sampleAksCluster = some (true, "") ∧
    aks003Eval sampleAksCluster = some (false, "99.9%") :=
  ⟨(aks_zones_and_sla sampleAksCluster [⟨some ["z1"], some true⟩] rfl).1
      ⟨⟨some ["z1"], some true⟩, by simp, ["z1"], rfl, rfl⟩,
    ((aks_zones_and_sla sampleAksCluster [⟨some ["z1"], some true⟩] rfl).2
        (by decide)).1
      ⟨⟨some ["z1"], some true⟩, by simp, Or.inr ⟨["z1"], rfl, by decide⟩⟩⟩

/-- C5: the totality policy fails on the code.  evh-002 dereferences
`*i.Properties.ZoneRedundant` with no nil check, so a namespace that leaves
the field unset panics instead of yielding a "not configured" result; the
same happens for aks-008 on an unset `EnableRBAC`, and evh-001 reaches
`log.Fatalf` (process exit) when the diagnostics lookup errors. -/
theorem rule_predicates_crash_on_unset_fields :
    evh002Eval
      ⟨some "id3", some "evhns3", some ⟨some "Standard"⟩,
        some ⟨none, []⟩⟩ = none ∧
    aks008Eval
      { name := some "aks2", sku := some ⟨some "Paid"⟩,
        properties := { agentPoolProfiles := some [], enableRBAC := none } } =
      none ∧
    evh001Eval ⟨fun _ => .error "listing failed"⟩
      ⟨some "id4", some "evhns4", none, none⟩ ⟨[]⟩ = none :=
  ⟨rfl, rfl, rfl⟩

/-- C9: whenever `Properties.Parameters` is populated and `fresh` is a
genuinely fresh address (above every address reachable from the workspace),
dbw-007 answers `(false, "")` no matter what `EnableNoPublicIP` holds: the
predicate compares the stored `*bool` against a freshly allocated pointer,
and that pointer equality can never hold. -/
theorem dbw007_never_broken (c : DbwWorkspace) (fresh : Nat)
    (props : DbwProperties) (params : DbwParameters)
    (hprops : c.properties = some props)
    (hparams : props.parameters = some params)
    (hfresh : addrBound c fresh) :
    dbw007Eval c fresh = some (false, "") := by
  simp only [dbw007Eval, Option.bind_eq_bind, hprops, Option.some_bind]
  rw [hparams]
  simp only [Option.some_bind]
  cases hip : params.enableNoPublicIP with
  | none => simp
  | some p =>
    cases hv : p.value with
    | none => simp [hv]
    | some a =>
      have ha : a < fresh := hfresh props params p a hprops hparams hip hv
      simp [hv, Nat.ne_of_lt ha]

/-- C9 witness: a concrete workspace whose `EnableNoPublicIP.Value` points
at address 0 while the fresh cell sits at address 1. -/
theorem dbw007_never_broken_witness :
    dbw007Eval ⟨some "wid1", some "dbw1", some ⟨some ⟨some ⟨some 0⟩⟩⟩⟩ 1 =
      some (false, "") :=
  dbw007_never_broken _ 1 ⟨some ⟨some ⟨some 0⟩⟩⟩ ⟨some ⟨some 0⟩⟩ rfl rfl
    (by
      intro props params p a h1 h2 h3 h4
      simp only [Option.some.injEq] at h1
      subst h1
      simp only [Option.some.injEq] at h2
      subst h2
      simp only [Option.some.injEq] at h3
      subst h3
      simp only [Option.some.injEq] at h4
      omega)

/-- C6 counterexample: with a classifier that marks nothing skippable, a
listing error drives `AdvisorScanner.Scan` into `log.Fatal`, terminating
the whole run — the error is not merely recorded against the unit. -/
theorem advisorScan_nonskippable_terminates :
    advisorScan (fun _ : Unit => false) (Except.error ()) true =
      AdvisorScanOutcome.fatal () := rfl

/-- C6 amended: a skippable listing error degrades to an empty result list,
while a non-skippable one reaches `log.Fatal` and terminates the run
(rather than being recorded without stopping it). -/
theorem advisorScan_error_handling {ε : Type} (shouldSkipError : ε → Bool)
    (e : ε) :
    (shouldSkipError e = true →
      advisorScan shouldSkipError (Except.error e) true = .ok []) ∧
    (shouldSkipError e = false →
      advisorScan shouldSkipError (Except.error e) true = .fatal e) := by
  constructor
  · intro h
    simp [advisorScan, h]
  · intro h
    simp [advisorScan, h]

/-- C6 amended witness: a skippable error on a concrete run yields the
empty result list. -/
theorem advisorScan_error_handling_witness :
    advisorScan (fun _ : Unit => true) (Except.error ()) true = .ok [] :=
  (advisorScan_error_handling (fun _ : Unit => true) ()).1 rfl

/-- `List.lookup` finds a key exactly when some pair carries it. -/
theorem lookup_isSome_iff (l : List (String × Bool)) (k : String) :
    ((l.lookup k).isSome = true) ↔ ∃ p ∈ l, p.1 = k := by
  induction l with
  | nil => simp
  | cons hd tl ih =>
    rcases hd with ⟨k', v⟩
    by_cases h : k = k'
    · subst h
      simp [List.lookup]
    · have hbeq : (k == k') = false := beq_eq_false_iff_ne.mpr h
      simp only [List.lookup, hbeq, List.mem_cons]
      rw [ih]
      constructor
      · rintro ⟨p, hp, hk⟩
        exact ⟨p, Or.inr hp, hk⟩
      · rintro ⟨p, hmem, hk⟩
        rcases hmem with rfl | hp
        · exact absurd hk.symm h
        · exact ⟨p, hp, hk⟩

/-- C2: dbw-001 answers `broken = false` exactly when the resource id,
compared case-insensitively, matches a key of the diagnostics-settings
index (whose keys are recorded lower-cased at build time); any casing of
the same id gets the same answer, and an unknown id yields `broken = true`
rather than an error. -/
theorem dbw001_case_insensitive (ctx : ScanContext) (w : DbwWorkspace)
    (id : String) (hid : w.id = some id)
    (hkeys : ∀ p ∈ ctx.diagnosticsSettings, strToLower p.1 = p.1) :
    ∃ broken, dbw001Eval w ctx = some (broken, "") ∧
      (broken = false ↔ ∃ p ∈ ctx.diagnosticsSettings, eqCI p.1 id = true) ∧
      (∀ (w₂ : DbwWorkspace) (id₂ : String), w₂.id = some id₂ →
        strToLower id₂ = strToLower id →
        dbw001Eval w₂ ctx = dbw001Eval w ctx) := by
  refine ⟨!(ctx.hasKey (strToLower id)), ?_, ?_, ?_⟩
  · simp [dbw001Eval, hid]
  · constructor
    · intro hb
      have hK : ctx.hasKey (strToLower id) = true := by
        cases hK : ctx.hasKey (strToLower id)
        · rw [hK] at hb
          simp at hb
        · rfl
      rcases (lookup_isSome_iff _ _).mp hK with ⟨p, hmem, hpk⟩
      refine ⟨p, hmem, ?_⟩
      unfold eqCI
      rw [hkeys p hmem, hpk]
      simp
    · rintro ⟨p, hmem, hCI⟩
      have hpk : p.1 = strToLower id := by
        have h2 : strToLower p.1 = strToLower id := by
          simpa [eqCI] using hCI
        rw [hkeys p hmem] at h2
        exact h2
      have hK : ctx.hasKey (strToLower id) = true :=
        (lookup_isSome_iff _ _).mpr ⟨p, hmem, hpk⟩
      simp [hK]
  · intro w₂ id₂ hid₂ hlow
    simp [dbw001Eval, hid, hid₂, hlow]

/-- C2 witness: the id `"SUB1"`, in upper case, hits the lower-cased key
`"sub1"` of a concrete index. -/
theorem dbw001_case_insensitive_witness :
    ∃ broken,
      dbw001Eval ⟨some "SUB1", some "dbw2", none⟩ ⟨[("sub1", true)]⟩ =
        some (broken, "") ∧
      (broken = false ↔
        ∃ p ∈ [("sub1", true)], eqCI p.1 "SUB1" = true) ∧
      (∀ (w₂ : DbwWorkspace) (id₂ : String), w₂.id = some id₂ →
        strToLower id₂ = strToLower "SUB1" →
        dbw001Eval w₂ ⟨[("sub1", true)]⟩ =
          dbw001Eval ⟨some "SUB1", some "dbw2", none⟩ ⟨[("sub1", true)]⟩) :=
  dbw001_case_insensitive ⟨[("sub1", true)]⟩ ⟨some "SUB1", some "dbw2", none⟩
    "SUB1" rfl (by decide)

/-- C8 counterexample: evh-001's outcome varies with the scanner's
`diagnosticsSettings` collaborator while the resource and the ScanContext
stay fixed — the predicate reads state beyond its two declared inputs
(aks-001 closes over the same scanner field). -/
theorem evh001_reads_scanner_state :
    evh001Eval ⟨fun _ => .ok true⟩ ⟨some "id5", some "n5", none, none⟩ ⟨[]⟩ ≠
      evh001Eval ⟨fun _ => .ok false⟩ ⟨some "id5", some "n5", none, none⟩
        ⟨[]⟩ := by
  decide

/-- C8 amended: every predicate is a deterministic function of the
resource, the scan context and the owning scanner's captured state —
evh-001 ignores its ScanContext argument altogether, and dbw-001 depends on
the context only through the diagnostics-settings index; none of them
mutates anything. -/
theorem predicates_deterministic (st : EvhScannerState) (i : EHNamespace)
    (ctx₁ ctx₂ : ScanContext) (w : DbwWorkspace)
    (hctx : ctx₁.diagnosticsSettings = ctx₂.diagnosticsSettings) :
    evh001Eval st i ctx₁ = evh001Eval st i ctx₂ ∧
    dbw001Eval w ctx₁ = dbw001Eval w ctx₂ := by
  constructor
  · rfl
  · simp [dbw001Eval, ScanContext.hasKey, hctx]

/-- C8 amended witness: concrete scanner state, namespace, workspace and a
pair of contexts sharing one index. -/
theorem predicates_deterministic_witness :
    evh001Eval ⟨fun _ => .ok true⟩ ⟨some "id6", none, none, none⟩
        ⟨[("k1", true)]⟩ =
      evh001Eval ⟨fun _ => .ok true⟩ ⟨some "id6", none, none, none⟩
        ⟨[("k1", true)]⟩ ∧
    dbw001Eval ⟨some "id6", none, none⟩ ⟨[("k1", true)]⟩ =
      dbw001Eval ⟨some "id6", none, none⟩ ⟨[("k1", true)]⟩ :=
  predicates_deterministic ⟨fun _ => .ok true⟩ ⟨some "id6", none, none, none⟩
    ⟨[("k1", true)]⟩ ⟨[("k1", true)]⟩ ⟨some "id6", none, none⟩ rfl
